import Mathlib

/-!
Shallow embedding of the hotel voice-agent client (the `Home` component in
`src/hotel-agent/app/layout.tsx`, lines 58-321: the "use client" page that
follows the layout) together with spec-modelled fragments of the backend
endpoints (`/greet`, `/chat`, `/end_call`), which are not part of the
sources under verification.

The client component keeps React state `callStatus`, `transcript`, `logs`,
`sessionId`, plus refs `audioRef`, `recognitionRef`, `silenceTimerRef`.
We embed that state as a record and each handler (`startCall`,
`handleUserSpeech`, `playAudio`, `endCall`, `addLog`, the recognition
`onstart` callback) as a pure state transformer.  Network effects are made
explicit: the response a `fetch` would deliver is passed as an argument, and
the requests a handler issues are accumulated in the state so that claims
of the form "no request is issued" are expressible.
-/

namespace HotelAgent

/-- The five UI call states of `type CallStatus` in the source. -/
inductive CallStatus
  | IDLE
  | LISTENING
  | PROCESSING
  | SPEAKING
  | SAVING
  deriving DecidableEq, Repr

/-- One entry of the `logs` state array: `{ sender: string; text: string }`. -/
structure LogEntry where
  sender : String
  text : String
  deriving DecidableEq, Repr

/-- A browser `Audio` object: the `src` it was constructed with and whether
it is currently playing. -/
structure Audio where
  src : String
  playing : Bool
  deriving DecidableEq, Repr

/-- A JSON object as the client consumes it: an association list of string
fields.  `res.json()` results are modelled at this granularity because the
handlers only ever read string-valued fields by name. -/
def Json : Type := List (String × String)

instance : DecidableEq Json := by
  unfold Json
  infer_instance

/-- Field access `data.k`: the first binding of `k`, `none` for JavaScript
`undefined`. -/
def jget (j : Json) (k : String) : Option String :=
  (j.find? (fun p => p.1 == k)).map (fun p => p.2)

/-- JavaScript truthiness of a possibly-undefined string: `undefined`,
`null` and `""` are falsy, every other string is truthy. -/
def jtruthy : Option String → Bool
  | none => false
  | some s => !(s == "")

/-- JavaScript string coercion of a possibly-undefined string value, as it
happens in template literals and rendered state: `undefined` prints as
`"undefined"`. -/
def jstr : Option String → String
  | none => "undefined"
  | some s => s

/-- The client component's state.  React state hooks and mutable refs of
the source, plus explicit observability fields: `alerts` records `alert()`
calls, `consoleErrors` records `console.error` string messages,
`chatRequests` the bodies of `POST /chat` requests issued, and
`endCallRequests` the session ids sent to `POST /end_call`.  The list
`audios` holds every `Audio` object created so far, most recent first, so
`audioRef.current` is `audios.head?`. -/
structure ClientState where
  callStatus : CallStatus
  transcript : String
  logs : List LogEntry
  sessionId : Option String
  audios : List Audio
  recognitionOn : Bool
  silenceTimer : Bool
  alerts : List String
  consoleErrors : List String
  chatRequests : List (String × Option String)
  endCallRequests : List String
  deriving DecidableEq, Repr

/-- The initial state of the component's hooks: `useState("IDLE")`,
`useState("Click 'Start Conversation' to begin...")`, empty logs, no
session, no audio, recognition not running. -/
def initState : ClientState :=
  { callStatus := .IDLE
    transcript := "Click 'Start Conversation' to begin..."
    logs := []
    sessionId := none
    audios := []
    recognitionOn := false
    silenceTimer := false
    alerts := []
    consoleErrors := []
    chatRequests := []
    endCallRequests := [] }

/-- `addLog(sender, text)`: `setLogs(prev => [...prev, { sender, text }])`. -/
def addLog (sender text : String) (s : ClientState) : ClientState :=
  { s with logs := s.logs ++ [⟨sender, text⟩] }

/-- `audioRef.current.pause()` guarded by `if (audioRef.current)`: the most
recently created audio, if any, stops playing. -/
def pauseCurrent : List Audio → List Audio
  | [] => []
  | a :: rest => { a with playing := false } :: rest

/-- `playAudio(url, textDisplay)`: set status SPEAKING, log the agent line,
display it, pause the current audio, construct
`new Audio(url + "?t=" + Date.now())` (the cache-busting timestamp is the
explicit `now` argument), start playing it, and install the `onended`
handler (modelled separately as `audioEnded`).  The `url` and `textDisplay`
arguments are possibly-undefined field reads, coerced as JavaScript would. -/
def playAudio (url textDisplay : Option String) (now : Nat) (s : ClientState) :
    ClientState :=
  let s1 := addLog "Aria" (jstr textDisplay) { s with callStatus := .SPEAKING }
  let s2 := { s1 with transcript := jstr textDisplay }
  { s2 with audios :=
      ⟨jstr url ++ "?t=" ++ toString now, true⟩ :: pauseCurrent s2.audios }

/-- The `audio.onended` handler installed by `playAudio`: the playing audio
has finished, the status becomes LISTENING, the accumulated text is cleared
and `recognitionRef.current.start()` is called. -/
def audioEnded (s : ClientState) : ClientState :=
  { s with audios := pauseCurrent s.audios
           callStatus := .LISTENING
           recognitionOn := true }

/-- `recognitionRef.current.onstart`:
`setCallStatus(prev => prev === "SAVING" ? "SAVING" : "LISTENING")`. -/
def onstart (prev : CallStatus) : CallStatus :=
  if prev == .SAVING then .SAVING else .LISTENING

/-- `startCall()`: set PROCESSING and the connecting message, clear the
logs, `fetch(API_URL + "/greet")` and parse JSON — `resp = none` models the
fetch or parse throwing, `some j` the parsed body; on success store
`data.session_id` and call `playAudio(data.audio_url, data.text)`; on
exception show the connection error and return to IDLE. -/
def startCall (resp : Option Json) (now : Nat) (s : ClientState) : ClientState :=
  let s1 := { s with callStatus := .PROCESSING
                     transcript := "Connecting to Aria..."
                     logs := [] }
  match resp with
  | none => { s1 with transcript := "Error connecting to server.", callStatus := .IDLE }
  | some j =>
      let s2 := { s1 with sessionId := jget j "session_id" }
      playAudio (jget j "audio_url") (jget j "text") now s2

/-- JavaScript `String.prototype.trim`: strip leading and trailing
whitespace characters. -/
def jsTrim (s : String) : String :=
  ⟨((s.data.dropWhile Char.isWhitespace).reverse.dropWhile Char.isWhitespace).reverse⟩

/-- `handleUserSpeech(text)`: return immediately when `!text.trim()` or
`!sessionId`; otherwise set PROCESSING, log the guest line, issue the
`POST /chat` request with body `{text, session_id}` and parse the JSON
response (`resp = none` models the fetch or parse throwing); if
`data.error` is truthy, `alert("Session Expired.")` and go IDLE; otherwise
`playAudio(data.audio_url, data.text)`.  A thrown fetch shows
"Connection Error." and goes IDLE. -/
def handleUserSpeech (text : String) (resp : Option Json) (now : Nat)
    (s : ClientState) : ClientState :=
  if jsTrim text == "" || !(jtruthy s.sessionId) then s
  else
    let s1 := addLog "Guest" text { s with callStatus := .PROCESSING }
    let s2 := { s1 with chatRequests := s1.chatRequests ++ [(text, s.sessionId)] }
    match resp with
    | none => { s2 with transcript := "Connection Error.", callStatus := .IDLE }
    | some j =>
        if jtruthy (jget j "error") then
          { s2 with alerts := s2.alerts ++ ["Session Expired."], callStatus := .IDLE }
        else
          playAudio (jget j "audio_url") (jget j "text") now s2

/-- How the `fetch` in `endCall` resolves: `ok` a 2xx response,
`httpError` a response with an error status (fetch resolves — the source
never reads the response at all), `networkFailure` the fetch throwing. -/
inductive EndCallNet
  | ok
  | httpError
  | networkFailure
  deriving DecidableEq, Repr

/-- `endCall()`: pause the audio, stop recognition, clear the silence
timer, show the SAVING state, and — only when a session id is held —
`await fetch(API_URL + "/end_call", ...)` (recording the request), ignore
its response, on a thrown fetch `console.error("Failed to save log")`, and
clear the session id; finally set IDLE and "Call Ended. Log saved." in
every case. -/
def endCall (net : EndCallNet) (s : ClientState) : ClientState :=
  let s0 := { s with audios := pauseCurrent s.audios
                     recognitionOn := false
                     silenceTimer := false
                     callStatus := .SAVING
                     transcript := "Saving call summary to CRM..." }
  let s1 :=
    match s.sessionId with
    | none => s0
    | some sid =>
        let s2 := { s0 with endCallRequests := s0.endCallRequests ++ [sid] }
        let s3 :=
          match net with
          | .networkFailure =>
              { s2 with consoleErrors := s2.consoleErrors ++ ["Failed to save log"] }
          | _ => s2
        { s3 with sessionId := none }
  { s1 with callStatus := .IDLE, transcript := "Call Ended. Log saved." }

/-- The user-visible face of the client state: everything the person at the
browser can observe (status, transcript, chat log, alerts).  Console output
and the request log are not user-visible. -/
def userVisible (s : ClientState) : CallStatus × String × List LogEntry × List String :=
  (s.callStatus, s.transcript, s.logs, s.alerts)

/-!
Event trace of `endCall`.  The pure state transformer above collapses the
intermediate states, so for the temporal claim (the caller stays in SAVING
and receives no acknowledgement until the `end_call` request completes) we
also embed `endCall` as the sequence of observable events it performs, in
source order.
-/

/-- One observable step of `endCall`, in the order the source performs
them. -/
inductive Ev
  | pauseAudio
  | stopRecognition
  | clearTimer
  | setStatus (c : CallStatus)
  | setTranscript (t : String)
  | fetchEndCall (sid : String)
  | fetchResolved
  | fetchFailed
  | consoleError (m : String)
  | clearSession
  deriving DecidableEq, Repr

/-- Whether an event is the completion (resolution or rejection) of the
awaited `end_call` fetch. -/
def Ev.isFetchDone : Ev → Bool
  | .fetchResolved => true
  | .fetchFailed => true
  | _ => false

/-- Whether an event is part of the success acknowledgement `endCall`
delivers to the user: leaving SAVING for IDLE or showing the
"Call Ended. Log saved." message. -/
def Ev.isAck : Ev → Bool
  | .setStatus .IDLE => true
  | .setTranscript t => t == "Call Ended. Log saved."
  | _ => false

/-- Whether an event sets the call status. -/
def Ev.isSetStatus : Ev → Bool
  | .setStatus _ => true
  | _ => false

/-- Whether an event is the entry into the SAVING state. -/
def Ev.isSetSaving : Ev → Bool
  | .setStatus .SAVING => true
  | _ => false

/-- The sequence of observable events `endCall` performs, in source order:
pause audio, stop recognition, clear the timer, enter SAVING with the
saving message, then — when a session id is held — issue and await the
`end_call` fetch (whose completion, successful or failed, is an explicit
event; a thrown fetch also logs to the console) and clear the session id;
finally set IDLE and the "Call Ended. Log saved." message. -/
def endCallTrace (sid : Option String) (net : EndCallNet) : List Ev :=
  [Ev.pauseAudio, Ev.stopRecognition, Ev.clearTimer,
   Ev.setStatus .SAVING, Ev.setTranscript "Saving call summary to CRM..."] ++
  (match sid with
   | none => []
   | some i =>
       [Ev.fetchEndCall i] ++
       (match net with
        | .ok => [Ev.fetchResolved]
        | .httpError => [Ev.fetchResolved]
        | .networkFailure => [Ev.fetchFailed, Ev.consoleError "Failed to save log"]) ++
       [Ev.clearSession]) ++
  [Ev.setStatus .IDLE, Ev.setTranscript "Call Ended. Log saved."]

/-!
Spec-modelled backend.  The FastAPI backend (session store, orchestrator
and CRM pipeline) is not among the sources under verification; the
following definitions model the endpoint behaviour the claims refer to,
from the specification's words alone.
-/

/-- Outcome of the backend `end_call` handler. -/
inductive EndCallOutcome
  | okWritten
  | crmWriteError
  | sessionNotFound
  deriving DecidableEq, Repr

/-- Modelled from the spec: the CRM write with bounded retries.  The
backend CRM pipeline is not under the verified sources.  Per the spec the
pipeline retries the write a bounded number of times with backoff;
`attempts` lists the success of each of the boundedly many attempts, and
the write as a whole succeeds exactly when some attempt does. -/
def crmWrite (attempts : List Bool) : Bool :=
  attempts.any id

/-- Result of the spec-modelled backend `end_call` handler: the outcome
reported to the caller, the remaining active session ids, and how many
times the CallSummary pipeline ran. -/
structure EndCallResult where
  outcome : EndCallOutcome
  active : List String
  pipelineRuns : Nat
  deriving DecidableEq, Repr

/-- Modelled from the spec: the backend `end_call` handler, which is not
under the verified sources.  Per the spec, `end_call` on an unknown
session id returns SessionNotFound and never invokes the CRM pipeline;
on a known id it closes the session (the id leaves the active set and is
not resurrected), runs the CallSummary pipeline exactly once, and reports
CrmWriteError when the bounded-retry CRM write fails, success when it is
confirmed. -/
def endCallBackend (active : List String) (sid : String) (attempts : List Bool) :
    EndCallResult :=
  if active.contains sid then
    let remaining := active.filter (fun x => !(x == sid))
    if crmWrite attempts then ⟨.okWritten, remaining, 1⟩
    else ⟨.crmWriteError, remaining, 1⟩
  else ⟨.sessionNotFound, active, 0⟩

/-- Modelled from the spec: the backend `/chat` endpoint, which is not
under the verified sources.  Per the spec a chat turn returns
`{reply_text, audio_url}` or `{error}` exactly when the session id is
unknown or expired; a failure of the Response Generator itself is surfaced
as a turn-level retry-later failure (the fetch or JSON parse fails at the
client, `none` here), never through the `error` field. -/
def chatBackend (active : List String) (sid : String) (genOk : Bool)
    (reply audioUrl : String) : Option Json :=
  if active.contains sid then
    if genOk then some [("text", reply), ("audio_url", audioUrl)]
    else none
  else some [("error", "Session not found or expired")]

/-- A client state holding a live session, as after a successful greet:
used to instantiate theorems at concrete inputs. -/
def chatReadyState : ClientState :=
  { initState with sessionId := some "s1" }

/-- C8: a chat-turn invocation with whitespace-only text or no session id
is a no-op: the handler returns the state unchanged, so no request is
issued, no log entry is appended and the status is untouched. -/
theorem c8_blank_or_sessionless_noop (text : String) (resp : Option Json)
    (now : Nat) (s : ClientState)
    (h : jsTrim text = "" ∨ s.sessionId = none) :
    handleUserSpeech text resp now s = s := by
  unfold handleUserSpeech
  rcases h with h | h
  · simp [h]
  · simp [h, jtruthy]

theorem c8_blank_or_sessionless_noop_witness :
    handleUserSpeech "   " (some [("text", "hi")]) 5 chatReadyState = chatReadyState :=
  c8_blank_or_sessionless_noop "   " (some [("text", "hi")]) 5 chatReadyState
    (Or.inl (by decide))

/-- C9: the recognition onstart callback never moves the status from
SAVING to LISTENING: it yields SAVING exactly when the previous status was
SAVING, and LISTENING in every other status. -/
theorem c9_onstart_preserves_saving :
    ∀ s : CallStatus,
      (onstart s = .SAVING ↔ s = .SAVING) ∧ (onstart s = .LISTENING ↔ s ≠ .SAVING) := by
  intro s
  cases s <;> exact ⟨by decide, by decide⟩

/-- C2: a chat turn whose JSON response carries a truthy error field ends
with the terminal "Session Expired." alert and the IDLE state, and exactly
one chat request was issued (the turn is never silently retried); a
response without the error field instead plays the reply: status SPEAKING,
the reply text displayed, and a new audio whose source is the returned
audio URL, again with exactly one request issued. -/
theorem c2_chat_turn_error_vs_success (text : String) (j : Json) (now : Nat)
    (s : ClientState) (ht : ¬ jsTrim text = "") (hs : jtruthy s.sessionId = true) :
    (jtruthy (jget j "error") = true →
      (handleUserSpeech text (some j) now s).alerts = s.alerts ++ ["Session Expired."] ∧
      (handleUserSpeech text (some j) now s).callStatus = .IDLE ∧
      (handleUserSpeech text (some j) now s).chatRequests
        = s.chatRequests ++ [(text, s.sessionId)]) ∧
    (jtruthy (jget j "error") = false →
      (handleUserSpeech text (some j) now s).callStatus = .SPEAKING ∧
      (handleUserSpeech text (some j) now s).transcript = jstr (jget j "text") ∧
      (handleUserSpeech text (some j) now s).audios.head?
        = some ⟨jstr (jget j "audio_url") ++ "?t=" ++ toString now, true⟩ ∧
      (handleUserSpeech text (some j) now s).chatRequests
        = s.chatRequests ++ [(text, s.sessionId)]) := by
  have h1 : (jsTrim text == "") = false := by
    simpa using ht
  constructor <;> intro he <;>
    simp [handleUserSpeech, h1, hs, he, playAudio, addLog]

theorem c2_chat_turn_error_vs_success_witness :
    (handleUserSpeech "hello" (some [("error", "gone")]) 3 chatReadyState).alerts
      = chatReadyState.alerts ++ ["Session Expired."] :=
  ((c2_chat_turn_error_vs_success "hello" [("error", "gone")] 3 chatReadyState
    (by decide) (by decide)).1 (by decide)).1

/-- C5: against the spec-modelled backend, the "Session Expired." alert is
raised exactly when the session id is absent from the active set; a
Response Generator failure on a live session yields the generic
"Connection Error." retry-later message with no alert, and a successful
turn raises no alert. -/
theorem c5_expired_only_for_session_absence (act : List String) (sid : String)
    (genOk : Bool) (reply url text : String) (now : Nat) (s : ClientState)
    (ht : ¬ jsTrim text = "") (hs : s.sessionId = some sid) (hne : ¬ sid = "") :
    (act.contains sid = false →
      (handleUserSpeech text (chatBackend act sid genOk reply url) now s).alerts
        = s.alerts ++ ["Session Expired."] ∧
      (handleUserSpeech text (chatBackend act sid genOk reply url) now s).callStatus
        = .IDLE) ∧
    (act.contains sid = true → genOk = false →
      (handleUserSpeech text (chatBackend act sid genOk reply url) now s).transcript
        = "Connection Error." ∧
      (handleUserSpeech text (chatBackend act sid genOk reply url) now s).alerts
        = s.alerts ∧
      (handleUserSpeech text (chatBackend act sid genOk reply url) now s).callStatus
        = .IDLE) ∧
    (act.contains sid = true → genOk = true →
      (handleUserSpeech text (chatBackend act sid genOk reply url) now s).alerts
        = s.alerts ∧
      (handleUserSpeech text (chatBackend act sid genOk reply url) now s).callStatus
        = .SPEAKING) := by
  have h1 : (jsTrim text == "") = false := by
    simpa using ht
  have h2 : jtruthy s.sessionId = true := by
    rw [hs]
    simp [jtruthy, hne]
  refine ⟨fun hc => ?_, fun hc hg => ?_, fun hc hg => ?_⟩
  · have e0 : chatBackend act sid genOk reply url
        = some [("error", "Session not found or expired")] := by
      unfold chatBackend
      rw [hc]
      simp
    have e1 : jtruthy (jget [("error", "Session not found or expired")] "error")
        = true := by decide
    simp [e0, handleUserSpeech, h1, h2, e1, addLog]
  · have e0 : chatBackend act sid genOk reply url = none := by
      unfold chatBackend
      rw [hc, hg]
      simp
    simp [e0, handleUserSpeech, h1, h2, addLog]
  · have e0 : chatBackend act sid genOk reply url
        = some [("text", reply), ("audio_url", url)] := by
      unfold chatBackend
      rw [hc, hg]
      simp
    have e1 : jtruthy (jget [("text", reply), ("audio_url", url)] "error")
        = false := rfl
    simp [e0, handleUserSpeech, h1, h2, e1, playAudio, addLog]

theorem c5_expired_only_for_session_absence_witness :
    (handleUserSpeech "hello" (chatBackend ["s2"] "s1" true "hi" "a.mp3") 3
      chatReadyState).alerts = chatReadyState.alerts ++ ["Session Expired."] :=
  ((c5_expired_only_for_session_absence ["s2"] "s1" true "hi" "a.mp3" "hello" 3
    chatReadyState (by decide) (by decide) (by decide)).1 (by decide)).1

/-- A list of audios none of which is playing filters to no playing
audio. -/
lemma filter_playing_nil (l : List Audio) (h : ∀ a ∈ l, a.playing = false) :
    l.filter (fun a => a.playing) = [] := by
  induction l with
  | nil => rfl
  | cons a rest ih =>
      have ha := h a (by simp)
      simp [List.filter, ha]
      exact fun b hb => h b (by simp [hb])

/-- C7: the chat log is append-only — every invocation of the chat-turn
handler extends the previous log, never reorders or deletes entries — and
on a successful turn the guest utterance entry is appended immediately
before the corresponding agent reply entry. -/
theorem c7_transcript_append_only (text : String) (resp : Option Json) (now : Nat)
    (s : ClientState) :
    (∃ t, (handleUserSpeech text resp now s).logs = s.logs ++ t) ∧
    (¬ jsTrim text = "" → jtruthy s.sessionId = true →
      ∀ j, resp = some j → jtruthy (jget j "error") = false →
        (handleUserSpeech text resp now s).logs
          = s.logs ++ [⟨"Guest", text⟩, ⟨"Aria", jstr (jget j "text")⟩]) := by
  constructor
  · by_cases hg : (jsTrim text == "" || !(jtruthy s.sessionId)) = true
    · exact ⟨[], by simp [handleUserSpeech, hg]⟩
    · have hg2 : (jsTrim text == "" || !(jtruthy s.sessionId)) = false := by
        simpa using hg
      cases resp with
      | none =>
          exact ⟨[⟨"Guest", text⟩], by simp [handleUserSpeech, hg2, addLog]⟩
      | some j =>
          by_cases he : jtruthy (jget j "error") = true
          · exact ⟨[⟨"Guest", text⟩], by simp [handleUserSpeech, hg2, he, addLog]⟩
          · have he2 : jtruthy (jget j "error") = false := by
              simpa using he
            exact ⟨[⟨"Guest", text⟩, ⟨"Aria", jstr (jget j "text")⟩],
              by simp [handleUserSpeech, hg2, he2, playAudio, addLog]⟩
  · intro ht hs j hj he
    subst hj
    have h1 : (jsTrim text == "") = false := by
      simpa using ht
    simp [handleUserSpeech, h1, hs, he, playAudio, addLog]

theorem c7_transcript_append_only_witness :
    (handleUserSpeech "hello" (some [("text", "hi"), ("audio_url", "a.mp3")]) 4
        chatReadyState).logs
      = chatReadyState.logs
          ++ [⟨"Guest", "hello"⟩, ⟨"Aria", "hi"⟩] :=
  (c7_transcript_append_only "hello" (some [("text", "hi"), ("audio_url", "a.mp3")])
    4 chatReadyState).2 (by decide) (by decide)
    [("text", "hi"), ("audio_url", "a.mp3")] rfl (by decide)

/-- C10: playing a new reply pauses the current audio first, so the new
audio is the only playing one (at most one active artifact); the status is
SPEAKING, not LISTENING, and recognition is untouched — only the audio's
onended event returns the status to LISTENING and restarts recognition. -/
theorem c10_single_active_audio (url textDisplay : Option String) (now : Nat)
    (s : ClientState) (hinv : ∀ a ∈ s.audios.tail, a.playing = false) :
    ((playAudio url textDisplay now s).audios.head?).map Audio.playing = some true ∧
    (∀ a ∈ (playAudio url textDisplay now s).audios.tail, a.playing = false) ∧
    ((playAudio url textDisplay now s).audios.filter (fun a => a.playing)).length ≤ 1 ∧
    (playAudio url textDisplay now s).callStatus = .SPEAKING ∧
    ¬ (playAudio url textDisplay now s).callStatus = .LISTENING ∧
    (playAudio url textDisplay now s).recognitionOn = s.recognitionOn ∧
    (audioEnded (playAudio url textDisplay now s)).callStatus = .LISTENING ∧
    (audioEnded (playAudio url textDisplay now s)).recognitionOn = true := by
  have htail : ∀ a ∈ pauseCurrent s.audios, a.playing = false := by
    cases haud : s.audios with
    | nil => simp [pauseCurrent]
    | cons a rest =>
        intro b hb
        simp [pauseCurrent] at hb
        rcases hb with hb | hb
        · simp [hb]
        · exact hinv b (by simp [haud, hb])
  have haudios : (playAudio url textDisplay now s).audios
      = ⟨jstr url ++ "?t=" ++ toString now, true⟩ :: pauseCurrent s.audios := by
    simp [playAudio, addLog]
  refine ⟨?_, ?_, ?_, ?_, ?_, ?_, ?_, ?_⟩
  · simp [haudios]
  · intro a ha
    rw [haudios] at ha
    exact htail a (by simpa using ha)
  · rw [haudios]
    simp [List.filter, filter_playing_nil (pauseCurrent s.audios) htail]
  · simp [playAudio, addLog]
  · simp [playAudio, addLog]
  · simp [playAudio, addLog]
  · simp [audioEnded]
  · simp [audioEnded]

theorem c10_single_active_audio_witness :
    ((playAudio (some "b.mp3") (some "hi") 7
        { chatReadyState with audios := [⟨"a.mp3?t=0", true⟩] }).audios.filter
        (fun a => a.playing)).length ≤ 1 :=
  (c10_single_active_audio (some "b.mp3") (some "hi") 7
    { chatReadyState with audios := [⟨"a.mp3?t=0", true⟩] }
    (by simp)).2.2.1

/-- C4: in the event trace of an end-of-call holding a session id, no part
of the success acknowledgement (leaving SAVING for IDLE, or the
"Call Ended. Log saved." message) occurs before the awaited end_call fetch
completes; between entering SAVING and that completion the status is never
changed (the path remains in SAVING); and the acknowledgement does occur
after the completion, whether the fetch resolves, resolves with an error
status, or fails. -/
theorem c4_ack_only_after_write (sid : String) (net : EndCallNet) :
    ((endCallTrace (some sid) net).takeWhile
        (fun e => !(Ev.isFetchDone e))).all (fun e => !(Ev.isAck e)) = true ∧
    (((endCallTrace (some sid) net).dropWhile
        (fun e => !(Ev.isSetSaving e))).tail.takeWhile
        (fun e => !(Ev.isFetchDone e))).all (fun e => !(Ev.isSetStatus e)) = true ∧
    ((endCallTrace (some sid) net).dropWhile
        (fun e => !(Ev.isFetchDone e))).any (fun e => Ev.isAck e) = true := by
  cases net <;> exact ⟨rfl, rfl, rfl⟩

/-- Filtering out a string from a list leaves a list not containing it. -/
lemma not_mem_filter_self (l : List String) (x : String) :
    x ∉ l.filter (fun y => !(y == x)) := by
  intro hx
  have h := List.of_mem_filter hx
  simp at h

/-- C3: an end-of-call without a session id issues no end_call request (so
the CRM pipeline is never reached from it); every end-of-call leaves the
client without a session id, so a following end-of-call issues no further
request — at most one pipeline invocation per stored session id; and the
spec-modelled backend returns SessionNotFound exactly on unknown ids, runs
the CallSummary pipeline once on a known id and zero times on an unknown
one, and never runs it again for the same id once the session is closed. -/
theorem c3_unknown_session_skips_pipeline (s : ClientState)
    (net net2 : EndCallNet) (act : List String) (sid : String)
    (attempts attempts2 : List Bool) :
    (endCall net { s with sessionId := none }).endCallRequests
      = s.endCallRequests ∧
    (endCall net s).sessionId = none ∧
    (endCall net2 (endCall net s)).endCallRequests
      = (endCall net s).endCallRequests ∧
    ((endCallBackend act sid attempts).outcome = .sessionNotFound
      ↔ act.contains sid = false) ∧
    (endCallBackend act sid attempts).pipelineRuns
      = (if act.contains sid then 1 else 0) ∧
    (endCallBackend (endCallBackend act sid attempts).active sid attempts2).pipelineRuns
      = 0 := by
  have hnone : ∀ (t : ClientState) (m : EndCallNet), t.sessionId = none →
      (endCall m t).endCallRequests = t.endCallRequests := by
    intro t m htn
    simp [endCall, htn]
  have h2 : (endCall net s).sessionId = none := by
    cases hs : s.sessionId <;> cases net <;> simp [endCall, hs]
  refine ⟨hnone _ net rfl, h2, hnone _ net2 h2, ?_, ?_, ?_⟩
  · by_cases hc : sid ∈ act
    · cases hw : crmWrite attempts <;> simp [endCallBackend, hc, hw]
    · simp [endCallBackend, hc]
  · by_cases hc : sid ∈ act
    · cases hw : crmWrite attempts <;> simp [endCallBackend, hc, hw]
    · simp [endCallBackend, hc]
  · by_cases hc : sid ∈ act
    · have hrem : (endCallBackend act sid attempts).active
          = act.filter (fun y => !(y == sid)) := by
        cases hw : crmWrite attempts <;> simp [endCallBackend, hc, hw]
      rw [hrem]
      simp [endCallBackend, not_mem_filter_self]
    · simp [endCallBackend, hc]

/-- C1: the end-of-call caller swallows the CRM write failure.  With a live
session, an end-of-call whose end_call fetch resolves with an error status
produces a state identical to the success case (the response is never
read), and one whose fetch fails outright differs only in a console line:
the user-visible outcome is the same "Call Ended. Log saved." IDLE display
with no alert — a silent success indication — even though the
spec-modelled backend reports CrmWriteError after its bounded retries are
exhausted while leaving the session closed. -/
theorem c1_crm_failure_silent_success :
    endCall .httpError chatReadyState = endCall .ok chatReadyState ∧
    userVisible (endCall .networkFailure chatReadyState)
      = userVisible (endCall .ok chatReadyState) ∧
    (endCall .networkFailure chatReadyState).transcript
      = "Call Ended. Log saved." ∧
    (endCall .networkFailure chatReadyState).callStatus = .IDLE ∧
    (endCall .networkFailure chatReadyState).alerts = [] ∧
    (endCall .networkFailure chatReadyState).consoleErrors
      = ["Failed to save log"] ∧
    (endCallBackend ["s1"] "s1" [false, false, false]).outcome
      = .crmWriteError ∧
    (endCallBackend ["s1"] "s1" [false, false, false]).active = [] := by
  decide

/-- C6 (amended): a greet response carrying `session_id`, `text` and
`audio_url` fields makes the caller store the returned session id, display
and log the reply text, and play a fresh audio object referencing the
returned URL (by reference, with a cache-busting timestamp appended),
ending in the SPEAKING state. -/
theorem c6_greet_contract (j : Json) (jsid t u : String) (now : Nat)
    (s : ClientState) (h1 : jget j "session_id" = some jsid)
    (h2 : jget j "text" = some t) (h3 : jget j "audio_url" = some u) :
    (startCall (some j) now s).sessionId = some jsid ∧
    (startCall (some j) now s).transcript = t ∧
    (startCall (some j) now s).logs = [⟨"Aria", t⟩] ∧
    (startCall (some j) now s).audios.head?
      = some ⟨u ++ "?t=" ++ toString now, true⟩ ∧
    (startCall (some j) now s).callStatus = .SPEAKING := by
  simp [startCall, h1, h2, h3, playAudio, addLog, jstr]

theorem c6_greet_contract_witness :
    (startCall (some [("session_id", "s1"), ("text", "Welcome!"),
        ("audio_url", "/g.mp3")]) 0 initState).sessionId = some "s1" :=
  (c6_greet_contract [("session_id", "s1"), ("text", "Welcome!"),
    ("audio_url", "/g.mp3")] "s1" "Welcome!" "/g.mp3" 0 initState
    (by decide) (by decide) (by decide)).1

/-- C6 (counterexample): the caller does not consume a `reply_text` field.
Fed the exact record shape the claim states — session_id, reply_text and
audio_url — the caller stores the session id but displays and logs the
string "undefined" instead of the reply, and a record differing only in
its `reply_text` value produces the identical state: the field is read
nowhere; the reply travels in a field named `text`. -/
theorem c6_reply_text_field_not_consumed :
    (startCall (some [("session_id", "s1"),
        ("reply_text", "Welcome to the Grand Hotel!"),
        ("audio_url", "/g.mp3")]) 0 initState).sessionId = some "s1" ∧
    (startCall (some [("session_id", "s1"),
        ("reply_text", "Welcome to the Grand Hotel!"),
        ("audio_url", "/g.mp3")]) 0 initState).transcript = "undefined" ∧
    ¬ (startCall (some [("session_id", "s1"),
        ("reply_text", "Welcome to the Grand Hotel!"),
        ("audio_url", "/g.mp3")]) 0 initState).transcript
      = "Welcome to the Grand Hotel!" ∧
    (startCall (some [("session_id", "s1"),
        ("reply_text", "Welcome to the Grand Hotel!"),
        ("audio_url", "/g.mp3")]) 0 initState).logs
      = [⟨"Aria", "undefined"⟩] ∧
    startCall (some [("session_id", "s1"), ("text", "hi"),
        ("audio_url", "/g.mp3"), ("reply_text", "A")]) 0 initState
      = startCall (some [("session_id", "s1"), ("text", "hi"),
        ("audio_url", "/g.mp3"), ("reply_text", "B")]) 0 initState := by
  decide

end HotelAgent
